/-
Verification of the phased workflow state machine and dataset-comparison
pipeline of the Katalon StudioAssist PoC evaluation harness.

The Lean definitions below are a shallow embedding of the Python sources:
  * `workflow_manager.py`   — WorkflowState, load/save, baseline/target
                              mutation helpers, the Phase-3 readiness gate;
  * `services/comparison_service.py` — token-set similarity, consistency
                              metrics and the recommendation decision logic;
  * `phased_orchestrator.py` — the promotion flow and the LLM3 judge wrapper
                              with its conservative default verdict.

Python dicts are modelled as association lists in insertion order (Python
dict assignment replaces a value in place when the key exists, otherwise
appends); machine floats that only ever hold exact decimal fractions are
modelled as rationals; fallible operations return `Option`/`Except`.
-/
import Mathlib

namespace KatalonPoC

/-! ## Dict primitives

`dictInsert` is Python `d[k] = v`: replace in place when the key exists,
otherwise append at the end. `List.lookup`-style search is done with
`dictGet`, which mirrors `d.get(k)` (first occurrence wins; the lists we
build have unique keys, as Python dicts do). -/

def dictGet {α : Type} (d : List (String × α)) (k : String) : Option α :=
  match d with
  | [] => none
  | (k', v) :: rest => if k' = k then some v else dictGet rest k

def dictInsert {α : Type} (d : List (String × α)) (k : String) (v : α) :
    List (String × α) :=
  match d with
  | [] => [(k, v)]
  | (k', v') :: rest =>
      if k' = k then (k', v) :: rest else (k', v') :: dictInsert rest k v

def dictHasKey {α : Type} (d : List (String × α)) (k : String) : Bool :=
  (dictGet d k).isSome

/-! ## Data model (`workflow_manager.py` lines 15-33, `constants.py`)

A baseline / target record is a Python dict built by the orchestrator
(`phased_orchestrator.py` lines 128-135 and 266-279); the fields below are
the keys the verified code reads or writes.  `baseline_id` and `updated_at`
are absent until the workflow manager stamps them, hence `Option`. -/

structure DatasetRecord where
  filename : String := ""
  inputs_file : String := ""
  num_inputs : Nat := 0
  created_at : String := ""
  state : String := "raw"
  llm_version : String := "LL1"
  baseline_id : Option String := none
  updated_at : Option String := none
deriving DecidableEq, Repr

/-- `WorkflowState` from `workflow_manager.py` lines 15-33.  `baselines` is a
Python dict keyed by baseline id, kept in insertion order. -/
structure WorkflowState where
  feature : String
  current_phase : String
  llm_config_state : String
  baselines : List (String × DatasetRecord) := []
  target_dataset : Option DatasetRecord := none
  selected_baseline_id : Option String := none
  inputs_file : Option String := none
  created_at : String := ""
  updated_at : String := ""
deriving DecidableEq, Repr

/-- Python truthiness of an optional string (`None` and `""` are falsy). -/
def truthyOptStr : Option String → Bool
  | none => false
  | some s => s ≠ ""

/-- `WorkflowState.__post_init__` applied to the freshly constructed state the
mutation helpers fall back to when `load_state` returns `None`
(`workflow_manager.py` lines 74-78 and 92-96): empty baselines, timestamps set
to the current time `now`. -/
def freshState (feature phase now : String) : WorkflowState :=
  { feature := feature
    current_phase := phase
    llm_config_state := "ll1_active"
    baselines := []
    target_dataset := none
    selected_baseline_id := none
    inputs_file := none
    created_at := now
    updated_at := now }

/-! ## `check_ready_for_comparison` (`workflow_manager.py` lines 124-151) -/

/-- `WorkflowManager.check_ready_for_comparison`.  The argument is the result
of `load_state(feature)` (`none` = no state file / unreadable). -/
def check_ready_for_comparison (st : Option WorkflowState) : Bool × String :=
  match st with
  | none => (false, "No workflow state found")
  | some s =>
      if s.baselines.isEmpty then
        (false, "No baselines created yet. Run phase 1 first.")
      else if ¬ truthyOptStr s.selected_baseline_id then
        (false, "No baseline selected for comparison. Run phase 2 first.")
      else if s.target_dataset.isNone then
        (false, "No target dataset created yet. Run phase 2 first.")
      else if (dictGet s.baselines (s.selected_baseline_id.getD "")).map
          DatasetRecord.state ≠ some "evaluated" then
        (false, "Selected baseline has not been evaluated")
      else if s.target_dataset.map DatasetRecord.state ≠ some "evaluated" then
        (false, "Target dataset has not been evaluated")
      else
        (true, "Ready for comparison")

/-- The conjunction of conditions under which the readiness gate passes. -/
def ReadyForComparison (st : Option WorkflowState) : Prop :=
  ∃ s, st = some s ∧
    s.baselines ≠ [] ∧
    truthyOptStr s.selected_baseline_id = true ∧
    s.target_dataset.isSome = true ∧
    (dictGet s.baselines (s.selected_baseline_id.getD "")).map
      DatasetRecord.state = some "evaluated" ∧
    s.target_dataset.map DatasetRecord.state = some "evaluated"

/-! ## Baseline / target mutation helpers (`workflow_manager.py` 72-103) -/

/-- The generated baseline id (`workflow_manager.py` line 81). -/
def genBaselineId (timestamp : String) (num_inputs : Nat) : String :=
  "baseline_" ++ timestamp ++ "_" ++ toString num_inputs

/-- `WorkflowManager.update_baseline_info`.  `prior` is `load_state(feature)`;
`timestamp` is `datetime.now().strftime("%Y%m%d_%H%M%S")`; `now` is the
creation time used when no prior state exists.  Returns the updated state and
the generated baseline id. -/
def update_baseline_info (prior : Option WorkflowState)
    (feature timestamp now : String) (baseline_info : DatasetRecord) :
    WorkflowState × String :=
  let st := prior.getD (freshState feature "baseline_created" now)
  let baseline_id := genBaselineId timestamp baseline_info.num_inputs
  let info := { baseline_info with baseline_id := some baseline_id }
  ({ st with
      baselines := dictInsert st.baselines baseline_id info
      current_phase := "baseline_created" },
   baseline_id)

/-- `WorkflowManager.update_target_info`.  `now` is `datetime.now()`
serialized; it stamps both the record's and the state's `updated_at`. -/
def update_target_info (prior : Option WorkflowState)
    (feature now : String) (target_info : DatasetRecord) : WorkflowState :=
  let st := prior.getD (freshState feature "target_created" now)
  let info := { target_info with updated_at := some now }
  { st with
      target_dataset := some info
      current_phase := "target_created"
      updated_at := now }

/-- Modelled from the spec: `WorkflowManager.promote_target_to_baseline` is
invoked by the orchestrator (`phased_orchestrator.py` line 558) but its
definition does not appear in the repository sources.  Per spec section 4.1 it
requires a non-null `target_dataset`, materializes it as a new BaselineRecord
(fresh baseline id, `state` forced to `promoted`), inserts it, clears
`target_dataset`, and per section 4.2 resets the phase to `baseline_created`
and clears `selected_baseline_id`; it returns false when no target exists.
`freshId` stands for the newly generated time-derived baseline id. -/
def wm_promote_target_to_baseline (st : WorkflowState) (freshId : String) :
    Bool × WorkflowState :=
  match st.target_dataset with
  | none => (false, st)
  | some tgt =>
      (true,
       { st with
          baselines := dictInsert st.baselines freshId
            { tgt with state := "promoted" }
          target_dataset := none
          selected_baseline_id := none
          current_phase := "baseline_created" })

/-- `PhasedOrchestrator.promote_target_to_baseline`
(`phased_orchestrator.py` lines 541-566): load the state; fail when there is
no state or no target; fail when the interactive confirmation is not `y`;
otherwise delegate to the workflow manager.  `confirmed` models
`response.lower() == "y"`. -/
def promote_target_to_baseline (st : Option WorkflowState)
    (confirmed : Bool) (freshId : String) : Bool × Option WorkflowState :=
  match st with
  | none => (false, none)
  | some s =>
      match s.target_dataset with
      | none => (false, some s)
      | some _ =>
          if confirmed then
            let r := wm_promote_target_to_baseline s freshId
            (r.1, some r.2)
          else (false, some s)

/-! ## Comparison service (`services/comparison_service.py`)

A dataset file's `results` map (`{input_id -> ResultRecord}`) is the part the
verified metrics read; the record fields below are the keys they access:
`api_output` (via `.get("api_output", "")`, so a missing key behaves as `""`)
and `ll3_evaluation.overall_score` (absent when the record carries no judge
evaluation). -/

structure ResultRecord where
  api_output : String := ""
  ll3_overall : Option ℚ := none
deriving DecidableEq, Repr

def Dataset : Type := List (String × ResultRecord)

/-- `text.split()` with no separator argument, over an explicit character
list: split on whitespace runs and drop empty fragments.  `acc` collects the
characters of the token currently being read, in reverse. -/
def splitWsAux : List Char → List Char → List String
  | [], acc => if acc.isEmpty then [] else [String.mk acc.reverse]
  | c :: cs, acc =>
      if c.isWhitespace then
        if acc.isEmpty then splitWsAux cs []
        else String.mk acc.reverse :: splitWsAux cs []
      else splitWsAux cs (c :: acc)

/-- The token set of a text: `set(text.lower().split())` — lowercase each
character, split on whitespace runs, deduplicate.  (`Char.toLower` lowers the
ASCII range; the difference from Python's full-Unicode `str.lower` is
immaterial to the verified properties, which never depend on which letters
get lowered.) -/
def tokenSet (s : String) : Finset String :=
  (splitWsAux (s.data.map Char.toLower) []).toFinset

/-- `DatasetComparisonService._calculate_text_similarity` (lines 258-270):
token-set Jaccard similarity with special cases for falsy (empty) inputs, and
`0.0` when both token sets are empty (`... if union else 0.0`). -/
def text_similarity (text1 text2 : String) : ℚ :=
  if text1 = "" ∨ text2 = "" then (if text1 ≠ text2 then 0 else 1)
  else
    let s1 := tokenSet text1
    let s2 := tokenSet text2
    if (s1 ∪ s2).card = 0 then 0
    else ((s1 ∩ s2).card : ℚ) / ((s1 ∪ s2).card : ℚ)

/-- `set(baseline_results.keys()) & set(target_results.keys())`, enumerated in
baseline insertion order (Python iterates the set in an unspecified order; all
verified quantities are order-independent). -/
def commonInputs (b t : Dataset) : List String :=
  ((b.map Prod.fst).filter (fun k => dictHasKey t k)).dedup

/-- `results[input_id].get("api_output", "")`. -/
def apiOutputAt (d : Dataset) (k : String) : String :=
  ((dictGet d k).map ResultRecord.api_output).getD ""

/-- Mean of a list of rationals (`statistics.mean`; callers guard emptiness). -/
def listMean (l : List ℚ) : ℚ := l.sum / (l.length : ℚ)

/-- One entry of `variation_details`: input id, similarity, baseline output
length, target output length. -/
structure VariationDetail where
  input_id : String
  similarity : ℚ
  baseline_length : Nat
  target_length : Nat
deriving DecidableEq, Repr

/-- The dict returned by `_calculate_consistency_metrics` (lines 250-256).
`consistency_std` (a square root, hence irrational in general) is not read by
any verified claim and is omitted from the embedding. -/
structure ConsistencyMetrics where
  overall_consistency : ℚ
  high_consistency_rate : ℚ
  significant_variations : Nat
  variation_details : List VariationDetail
deriving DecidableEq, Repr

/-- `DatasetComparisonService._calculate_consistency_metrics` (lines 219-256):
per common input the similarity of the two `api_output`s; a variation entry is
recorded when similarity `< 0.9`; the report keeps the mean, the fraction
`> 0.9`, the variation count and the first five variation details. -/
def calculate_consistency_metrics (b t : Dataset) : ConsistencyMetrics :=
  let common := commonInputs b t
  let scores := common.map (fun k =>
    text_similarity (apiOutputAt b k) (apiOutputAt t k))
  let variations := common.filterMap (fun k =>
    let s := text_similarity (apiOutputAt b k) (apiOutputAt t k)
    if s < 9/10 then
      some { input_id := k
             similarity := s
             baseline_length := (apiOutputAt b k).length
             target_length := (apiOutputAt t k).length }
    else none)
  { overall_consistency := if scores.isEmpty then 0 else listMean scores
    high_consistency_rate :=
      if scores.isEmpty then 0
      else ((scores.filter (fun s => 9/10 < s)).length : ℚ) / (scores.length : ℚ)
    significant_variations := variations.length
    variation_details := variations.take 5 }

/-- `result["ll3_evaluation"]["overall_score"]` collected over all results
(`_extract_scores`, lines 130-143, key `"overall"`). -/
def extractOverall (d : Dataset) : List ℚ :=
  d.filterMap (fun kv => kv.2.ll3_overall)

/-- The `overall_comparison` block of `_compare_quality_scores` (lines
107-118): `(baseline_mean, target_mean)` when both overall-score lists are
non-empty, otherwise the block stays empty (`none`). -/
def overall_comparison (b t : Dataset) : Option (ℚ × ℚ) :=
  let bo := extractOverall b
  let tov := extractOverall t
  if bo ≠ [] ∧ tov ≠ [] then some (listMean bo, listMean tov) else none

structure Recommendation where
  decision : String
  confidence : String
deriving DecidableEq, Repr

/-- The decision chain of `_generate_recommendation` (lines 365-388). -/
def decideRecommendation (score_improvement consistency : ℚ) :
    Recommendation :=
  if score_improvement > 1/2 ∧ consistency > 4/5 then
    { decision := "RECOMMEND_LL2", confidence := "high" }
  else if score_improvement > 0 ∧ consistency > 7/10 then
    { decision := "CONSIDER_LL2", confidence := "medium" }
  else if score_improvement < -(1/2) ∨ consistency < 3/5 then
    { decision := "KEEP_LL1", confidence := "high" }
  else
    { decision := "NEEDS_MORE_TESTING", confidence := "low" }

/-- `DatasetComparisonService._generate_recommendation` (lines 346-389) as it
acts on a `compare_datasets` result.  In accuracy mode the comparison dict
holds `consistency_metrics = None`, so the source line
`comparison.get("consistency_metrics", {}).get("overall_consistency", 0)`
raises `AttributeError` (`None` has no `.get`); the embedding surfaces that as
`Except.error`. -/
def generate_recommendation (consistency_metrics : Option ConsistencyMetrics)
    (overall_comp : Option (ℚ × ℚ)) : Except String Recommendation :=
  match consistency_metrics with
  | none =>
      Except.error "AttributeError: NoneType object has no attribute get"
  | some m =>
      let baseline_score := (overall_comp.map Prod.fst).getD 0
      let target_score := (overall_comp.map Prod.snd).getD 0
      Except.ok
        (decideRecommendation (target_score - baseline_score)
          m.overall_consistency)

/-- The recommendation produced by `DatasetComparisonService.compare_datasets`
(lines 21-53): `consistency_metrics` is computed only in consistency mode and
is the Python value `None` otherwise (line 38), then fed to
`_generate_recommendation` (line 47). -/
def compare_datasets_recommendation (mode : String) (b t : Dataset) :
    Except String Recommendation :=
  generate_recommendation
    (if mode = "consistency" then some (calculate_consistency_metrics b t)
     else none)
    (overall_comparison b t)

/-! ## JSON values

A small JSON universe, used to model the judge's free-form response dict
(`phased_orchestrator.py` lines 708-784) and the persisted workflow-state
layout (`workflow_manager.py` lines 49-70). -/

inductive JVal where
  | null : JVal
  | str : String → JVal
  | num : ℚ → JVal
  | arr : List JVal → JVal
  | obj : List (String × JVal) → JVal
deriving BEq, Repr

/-! ## LLM3 judge wrapper (`phased_orchestrator.py` lines 708-784) -/

/-- The eight top-level fields `evaluate_with_llm3` requires (lines 732-741). -/
def requiredFields : List String :=
  ["consistency_scores", "accuracy_scores", "performance_metrics",
   "analysis", "recommendations", "final_recommendation",
   "confidence_level", "detailed_explanation"]

/-- `PhasedOrchestrator._get_default_evaluation` (lines 756-784), field for
field. -/
def get_default_evaluation : List (String × JVal) :=
  [("consistency_scores", .obj
      [("output_stability", .num 0), ("behavior_consistency", .num 0),
       ("style_consistency", .num 0)]),
   ("accuracy_scores", .obj
      [("functional_correctness", .num 0), ("code_quality", .num 0),
       ("test_coverage", .num 0)]),
   ("performance_metrics", .obj
      [("baseline_avg_time", .num 0), ("target_avg_time", .num 0),
       ("time_difference", .num 0)]),
   ("analysis", .obj
      [("key_differences", .arr [.str "Evaluation failed"]),
       ("improvements", .arr []), ("regressions", .arr []),
       ("concerns", .arr [.str "LLM3 evaluation failed"])]),
   ("recommendations", .arr
      [.str "Unable to provide recommendations due to evaluation failure"]),
   ("final_recommendation", .str "FURTHER_TESTING"),
   ("confidence_level", .str "low"),
   ("detailed_explanation", .str "LLM3 evaluation failed")]

/-- The outcome of `self.llm_manager.call_llm(...)`: the call may raise
(`Except.error`), return a falsy response (`none` for Python `None`, `some []`
for `{}`), or return a JSON object modelled as its key-value pairs. -/
def JudgeCall : Type := Except Unit (Option (List (String × JVal)))

/-- `PhasedOrchestrator.evaluate_with_llm3` (lines 708-754): on an exception,
a falsy response, or a response missing any required field, return the default
evaluation; otherwise return the response unchanged. -/
def evaluate_with_llm3 (call : JudgeCall) : List (String × JVal) :=
  match call with
  | .error _ => get_default_evaluation
  | .ok none => get_default_evaluation
  | .ok (some response) =>
      if response.isEmpty then get_default_evaluation
      else if requiredFields.all (fun f => dictHasKey response f) then response
      else get_default_evaluation

/-- Every numeric leaf of a JSON object is zero (used to state "all numeric
scores are zero" about the default verdict's score blocks). -/
def allScoresZero (v : JVal) : Bool :=
  match v with
  | .obj fields => fields.all (fun kv =>
      match kv.2 with
      | .num q => q == 0
      | _ => false)
  | _ => false

/-! ## Persisted state layout (`workflow_manager.py` lines 45-70)

`save_state` writes `json.dump(asdict(state))`; `load_state` reads the file,
parses it and calls `WorkflowState(**data)`, returning `None` on any
exception.  `encodeRecord`/`encodeState` are `asdict` composed with the JSON
dump for the record fields of the embedding; `decodeState` is
`WorkflowState(**data)` together with `__post_init__` (which replaces
`updated_at` with the current time `now`, and `created_at`/`baselines` when
falsy).  `WorkflowState(**data)` raises `TypeError` when a required field is
missing or an unknown key is present; the embedding additionally rejects
values of the wrong JSON shape, which the typed model cannot hold (Python
would accept them; no verified claim depends on that case). -/

def encodeOptStr : Option String → JVal
  | none => .null
  | some s => .str s

def decodeOptStr : Option JVal → Option (Option String)
  | none => some none
  | some .null => some none
  | some (.str s) => some (some s)
  | some _ => none

def encodeRecord (r : DatasetRecord) : JVal :=
  .obj [("filename", .str r.filename),
        ("inputs_file", .str r.inputs_file),
        ("num_inputs", .num r.num_inputs),
        ("created_at", .str r.created_at),
        ("state", .str r.state),
        ("llm_version", .str r.llm_version),
        ("baseline_id", encodeOptStr r.baseline_id),
        ("updated_at", encodeOptStr r.updated_at)]

def decodeNat : JVal → Option Nat
  | .num q => if q.den = 1 ∧ 0 ≤ q.num then some q.num.toNat else none
  | _ => none

def decodeStr : Option JVal → Option String
  | some (.str s) => some s
  | _ => none

def decodeRecord (v : JVal) : Option DatasetRecord :=
  match v with
  | .obj fs =>
      match decodeStr (dictGet fs "filename"),
            decodeStr (dictGet fs "inputs_file"),
            (dictGet fs "num_inputs").bind decodeNat,
            decodeStr (dictGet fs "created_at"),
            decodeStr (dictGet fs "state"),
            decodeStr (dictGet fs "llm_version"),
            decodeOptStr (dictGet fs "baseline_id"),
            decodeOptStr (dictGet fs "updated_at") with
      | some fn, some inf, some ni, some ca, some st, some lv, some bi, some ua =>
          some { filename := fn, inputs_file := inf, num_inputs := ni,
                 created_at := ca, state := st, llm_version := lv,
                 baseline_id := bi, updated_at := ua }
      | _, _, _, _, _, _, _, _ => none
  | _ => none

def encodeState (st : WorkflowState) : JVal :=
  .obj [("feature", .str st.feature),
        ("current_phase", .str st.current_phase),
        ("llm_config_state", .str st.llm_config_state),
        ("baselines", .obj (st.baselines.map (fun kv => (kv.1, encodeRecord kv.2)))),
        ("target_dataset",
          match st.target_dataset with
          | none => .null
          | some r => encodeRecord r),
        ("selected_baseline_id", encodeOptStr st.selected_baseline_id),
        ("inputs_file", encodeOptStr st.inputs_file),
        ("created_at", .str st.created_at),
        ("updated_at", .str st.updated_at)]

/-- The keyword names accepted by `WorkflowState(**data)`. -/
def stateFields : List String :=
  ["feature", "current_phase", "llm_config_state", "baselines",
   "target_dataset", "selected_baseline_id", "inputs_file",
   "created_at", "updated_at"]

/-- The dataclass fields without default values. -/
def requiredStateFields : List String :=
  ["feature", "current_phase", "llm_config_state"]

/-- `WorkflowState(**data)` succeeds only when `data` is a JSON object whose
keys are all known field names and include every required field. -/
def kwargsMatch (j : JVal) : Bool :=
  match j with
  | .obj fs =>
      requiredStateFields.all (fun f => dictHasKey fs f) &&
      (fs.map Prod.fst).all (fun k => stateFields.contains k)
  | _ => false

/-- Decode every entry of a JSON object of records, failing if any entry
fails. -/
def decodeEntries : List (String × JVal) → Option (List (String × DatasetRecord))
  | [] => some []
  | (k, v) :: rest =>
      match decodeRecord v, decodeEntries rest with
      | some r, some tl => some ((k, r) :: tl)
      | _, _ => none

/-- `baselines` keyword: absent or `None` becomes `{}` via `__post_init__`;
otherwise an object of records. -/
def decodeBaselines : Option JVal → Option (List (String × DatasetRecord))
  | none => some []
  | some .null => some []
  | some (.obj fs) => decodeEntries fs
  | some _ => none

/-- `target_dataset` keyword: absent or `None` is no target. -/
def decodeTarget : Option JVal → Option (Option DatasetRecord)
  | none => some none
  | some .null => some none
  | some v => (decodeRecord v).map some

/-- `created_at` keyword: `__post_init__` replaces a falsy value (absent,
`None` or `""`) with the current time. -/
def decodeCreatedAt : Option JVal → String → Option String
  | none, now => some now
  | some .null, now => some now
  | some (.str s), now => some (if s = "" then now else s)
  | some _, _ => none

/-- `WorkflowState(**data)` followed by `__post_init__` at time `now`. -/
def decodeState (j : JVal) (now : String) : Option WorkflowState :=
  if kwargsMatch j then
    match j with
    | .obj fs =>
        match decodeStr (dictGet fs "feature"),
              decodeStr (dictGet fs "current_phase"),
              decodeStr (dictGet fs "llm_config_state"),
              decodeBaselines (dictGet fs "baselines"),
              decodeTarget (dictGet fs "target_dataset"),
              decodeOptStr (dictGet fs "selected_baseline_id"),
              decodeOptStr (dictGet fs "inputs_file"),
              decodeCreatedAt (dictGet fs "created_at") now with
        | some f, some cp, some lcs, some bs, some tgt, some sel, some inf,
          some ca =>
            some { feature := f, current_phase := cp, llm_config_state := lcs,
                   baselines := bs, target_dataset := tgt,
                   selected_baseline_id := sel, inputs_file := inf,
                   created_at := ca, updated_at := now }
        | _, _, _, _, _, _, _, _ => none
    | _ => none
  else none

/-- The contents of the state file: `none` = the file does not exist;
`some none` = the contents are not valid JSON (`json.load` raises);
`some (some j)` = the file parses to `j`. -/
def StateFile : Type := Option (Option JVal)

/-- `WorkflowManager.load_state` (lines 49-61): `None` when the file is
absent; every exception from parsing or construction is caught and also
yields `None`. -/
def load_state (file : StateFile) (now : String) : Option WorkflowState :=
  match file with
  | none => none
  | some none => none
  | some (some j) => decodeState j now

/-- `WorkflowManager.save_state` (lines 63-70) writes
`json.dump(asdict(state))`: the file afterwards parses to the encoded
state. -/
def save_state (st : WorkflowState) : StateFile :=
  some (some (encodeState st))

/-! ## Dict lemmas -/

theorem dictGet_append_right {α : Type} (d : List (String × α)) (k : String)
    (v : α) (h : dictHasKey d k = false) :
    dictGet (d ++ [(k, v)]) k = some v := by
  induction d with
  | nil => simp [dictGet]
  | cons hd tl ih =>
      simp only [dictHasKey, dictGet, Option.isSome] at h ⊢
      by_cases hk : hd.1 = k
      · rw [if_pos hk] at h
        simp at h
      · rw [if_neg hk] at h ⊢
        exact ih h

theorem dictInsert_of_not_mem {α : Type} (d : List (String × α))
    (k : String) (v : α) (h : dictHasKey d k = false) :
    dictInsert d k v = d ++ [(k, v)] := by
  induction d with
  | nil => simp [dictInsert]
  | cons hd tl ih =>
      simp only [dictHasKey, dictGet, Option.isSome] at h
      by_cases hk : hd.1 = k
      · rw [if_pos hk] at h
        simp at h
      · rw [if_neg hk] at h
        cases hd with
        | mk k' v' =>
            simp only [dictInsert, List.cons_append]
            rw [if_neg hk, ih h]

theorem mem_dictInsert_of_not_mem {α : Type} (d : List (String × α))
    (k : String) (v : α) (h : dictHasKey d k = false) (kv : String × α)
    (hm : kv ∈ d) : kv ∈ dictInsert d k v := by
  rw [dictInsert_of_not_mem d k v h]
  exact List.mem_append_left _ hm

theorem length_dictInsert_of_not_mem {α : Type} (d : List (String × α))
    (k : String) (v : α) (h : dictHasKey d k = false) :
    (dictInsert d k v).length = d.length + 1 := by
  rw [dictInsert_of_not_mem d k v h]
  simp

theorem dictGet_dictInsert_self {α : Type} (d : List (String × α))
    (k : String) (v : α) : dictGet (dictInsert d k v) k = some v := by
  induction d with
  | nil => simp [dictInsert, dictGet]
  | cons hd tl ih =>
      cases hd with
      | mk k' v' =>
          by_cases hk : k' = k
          · simp [dictInsert, dictGet, hk]
          · simp only [dictInsert, dictGet, if_neg hk]
            exact ih

/-- C9: `update_target_info` (`setTarget`) unconditionally replaces the
target dataset with the given record stamped with `updated_at = now` (so at
most one target exists afterwards, the field being single-valued), refreshes
the state's `updated_at` and phase, and leaves both the baselines mapping and
the selected baseline of the prior (or freshly created) state unchanged. -/
theorem update_target_info_replaces_and_frames (prior : Option WorkflowState)
    (feature now : String) (target_info : DatasetRecord) :
    (update_target_info prior feature now target_info).target_dataset
        = some { target_info with updated_at := some now } ∧
    (update_target_info prior feature now target_info).baselines
        = (prior.getD (freshState feature "target_created" now)).baselines ∧
    (update_target_info prior feature now target_info).selected_baseline_id
        = (prior.getD (freshState feature "target_created" now)).selected_baseline_id ∧
    (update_target_info prior feature now target_info).current_phase
        = "target_created" ∧
    (update_target_info prior feature now target_info).updated_at = now := by
  cases prior <;> simp [update_target_info, freshState]

/-- C7 counterexample: the generated baseline id is time-derived and not
checked for collisions, so a prior baseline stored under the id that
`update_baseline_info` generates for the incoming record is overwritten: the
pre-existing entry is no longer present afterwards. -/
def collidingRecord : DatasetRecord :=
  { filename := "old_baseline.json", num_inputs := 2, state := "evaluated" }

def collidingState : WorkflowState :=
  { feature := "generate_code", current_phase := "baseline_created",
    llm_config_state := "ll1_active",
    baselines := [("baseline_20250101_120000_2", collidingRecord)] }

def incomingRecord : DatasetRecord :=
  { filename := "new_baseline.json", num_inputs := 2 }

/-- C7 (counterexample): calling `update_baseline_info` on a state that
already holds a baseline under the generated id replaces that entry, so a
baseline present before the call is absent (unchanged) after it. -/
theorem update_baseline_info_overwrites_on_collision :
    ("baseline_20250101_120000_2", collidingRecord) ∈ collidingState.baselines ∧
    ("baseline_20250101_120000_2", collidingRecord) ∉
      (update_baseline_info (some collidingState) "generate_code"
        "20250101_120000" "t0" incomingRecord).1.baselines := by
  decide

/-- C7 (amended): provided the generated id `baseline_<timestamp>_<count>`
does not already key an existing baseline (time-derived collisions are not
checked by the code), `update_baseline_info` returns that id, stores the
record under it with its `baseline_id` field stamped, sets the phase to
`baseline_created`, and every baseline entry present before the call is
present and unchanged after it (the mapping grows by exactly one entry). -/
theorem update_baseline_info_inserts_fresh (prior : Option WorkflowState)
    (feature timestamp now : String) (baseline_info : DatasetRecord)
    (hfresh : dictHasKey
        (prior.getD (freshState feature "baseline_created" now)).baselines
        (genBaselineId timestamp baseline_info.num_inputs) = false) :
    (update_baseline_info prior feature timestamp now baseline_info).2
        = genBaselineId timestamp baseline_info.num_inputs ∧
    (update_baseline_info prior feature timestamp now baseline_info).1.current_phase
        = "baseline_created" ∧
    dictGet (update_baseline_info prior feature timestamp now baseline_info).1.baselines
        (genBaselineId timestamp baseline_info.num_inputs)
      = some { baseline_info with
          baseline_id := some (genBaselineId timestamp baseline_info.num_inputs) } ∧
    (∀ kv ∈ (prior.getD (freshState feature "baseline_created" now)).baselines,
      kv ∈ (update_baseline_info prior feature timestamp now baseline_info).1.baselines) ∧
    (update_baseline_info prior feature timestamp now baseline_info).1.baselines.length
      = (prior.getD (freshState feature "baseline_created" now)).baselines.length + 1 := by
  refine ⟨rfl, rfl, ?_, ?_, ?_⟩
  · simp only [update_baseline_info]
    exact dictGet_dictInsert_self _ _ _
  · intro kv hkv
    simp only [update_baseline_info]
    exact mem_dictInsert_of_not_mem _ _ _ hfresh kv hkv
  · simp only [update_baseline_info]
    exact length_dictInsert_of_not_mem _ _ _ hfresh

/-- C7 witness: a concrete call on a state holding one baseline under a
different id: the old entry survives, the new one is added. -/
theorem update_baseline_info_inserts_fresh_witness :
    dictHasKey collidingState.baselines "baseline_20250301_090000_3" = false ∧
    (∀ kv ∈ collidingState.baselines,
      kv ∈ (update_baseline_info (some collidingState) "generate_code"
        "20250301_090000" "t0" { incomingRecord with num_inputs := 3 }).1.baselines) ∧
    (update_baseline_info (some collidingState) "generate_code"
        "20250301_090000" "t0" { incomingRecord with num_inputs := 3 }).1.baselines.length
      = collidingState.baselines.length + 1 := by
  have h := update_baseline_info_inserts_fresh (some collidingState)
    "generate_code" "20250301_090000" "t0"
    { incomingRecord with num_inputs := 3 } (by decide)
  exact ⟨by decide, h.2.2.2.1, h.2.2.2.2⟩

/-- C1: promotion is all-or-nothing.  With no loaded state or no target the
call fails and the state (hence `baselines`) is returned unchanged; with a
target present and the confirmation answered `y`, it succeeds and the
resulting state has exactly one new baseline entry (the promoted target,
`state` forced to `promoted`), every previous entry intact, no target, and
the phase reset to `baseline_created`.  The workflow-manager half is
modelled from the spec (its definition is absent from the sources, see
`wm_promote_target_to_baseline`); the freshly generated id is assumed not to
collide with an existing baseline id. -/
theorem promote_all_or_nothing (st : WorkflowState) (confirmed : Bool)
    (freshId : String) :
    promote_target_to_baseline none confirmed freshId = (false, none) ∧
    (st.target_dataset = none →
      promote_target_to_baseline (some st) confirmed freshId = (false, some st)) ∧
    (∀ tgt, st.target_dataset = some tgt →
      dictHasKey st.baselines freshId = false →
      ∃ st', promote_target_to_baseline (some st) true freshId = (true, some st') ∧
        st'.baselines.length = st.baselines.length + 1 ∧
        dictGet st'.baselines freshId = some { tgt with state := "promoted" } ∧
        (∀ kv ∈ st.baselines, kv ∈ st'.baselines) ∧
        st'.target_dataset = none ∧
        st'.current_phase = "baseline_created") := by
  refine ⟨rfl, ?_, ?_⟩
  · intro h
    simp [promote_target_to_baseline, h]
  · intro tgt htgt hfresh
    refine ⟨{ st with
        baselines := dictInsert st.baselines freshId { tgt with state := "promoted" }
        target_dataset := none
        selected_baseline_id := none
        current_phase := "baseline_created" }, ?_, ?_, ?_, ?_, rfl, rfl⟩
    · simp [promote_target_to_baseline, wm_promote_target_to_baseline, htgt]
    · exact length_dictInsert_of_not_mem _ _ _ hfresh
    · exact dictGet_dictInsert_self _ _ _
    · intro kv hkv
      exact mem_dictInsert_of_not_mem _ _ _ hfresh kv hkv

/-- C1 witness: a concrete state with one baseline and a live target; no
target ⇒ failure with untouched state, target + confirmation ⇒ success with
one added (promoted) entry, cleared target and reset phase. -/
theorem promote_all_or_nothing_witness :
    (promote_target_to_baseline
        (some { collidingState with target_dataset := none }) true "idX"
      = (false, some { collidingState with target_dataset := none })) ∧
    (∃ st', promote_target_to_baseline
        (some { collidingState with target_dataset := some incomingRecord })
        true "baseline_20250401_080000_2" = (true, some st') ∧
      st'.baselines.length
        = ({ collidingState with target_dataset := some incomingRecord } :
            WorkflowState).baselines.length + 1 ∧
      dictGet st'.baselines "baseline_20250401_080000_2"
        = some { incomingRecord with state := "promoted" } ∧
      (∀ kv ∈ ({ collidingState with target_dataset := some incomingRecord } :
          WorkflowState).baselines, kv ∈ st'.baselines) ∧
      st'.target_dataset = none ∧
      st'.current_phase = "baseline_created") := by
  constructor
  · exact (promote_all_or_nothing
      { collidingState with target_dataset := none } true "idX").2.1 rfl
  · exact (promote_all_or_nothing
      { collidingState with target_dataset := some incomingRecord } true
      "baseline_20250401_080000_2").2.2 incomingRecord rfl (by decide)

theorem ready_some_iff (s : WorkflowState) :
    ReadyForComparison (some s) ↔
      (s.baselines ≠ [] ∧
       truthyOptStr s.selected_baseline_id = true ∧
       s.target_dataset.isSome = true ∧
       (dictGet s.baselines (s.selected_baseline_id.getD "")).map
         DatasetRecord.state = some "evaluated" ∧
       s.target_dataset.map DatasetRecord.state = some "evaluated") := by
  constructor
  · rintro ⟨s', hs', h⟩
    cases Option.some.inj hs'
    exact h
  · intro h
    exact ⟨s, rfl, h⟩

/-- C2: the readiness gate returns `(true, "Ready for comparison")` exactly
when a state exists with non-empty baselines, a truthy selection, a target,
and both the selected baseline's and the target's `state` equal to
`evaluated`; whenever any of those conditions fails the first component is
`false` (with the branch's specific reason).  In particular, when the earlier
conditions hold but both the selected baseline and the target are still
`raw`, the reason is the baseline one, since it is checked first. -/
theorem check_ready_for_comparison_spec (st : Option WorkflowState) :
    (check_ready_for_comparison st = (true, "Ready for comparison")
      ↔ ReadyForComparison st) ∧
    ((check_ready_for_comparison st).1 = true →
      check_ready_for_comparison st = (true, "Ready for comparison")) ∧
    (∀ s b tgt, st = some s → s.baselines ≠ [] →
      truthyOptStr s.selected_baseline_id = true →
      dictGet s.baselines (s.selected_baseline_id.getD "") = some b →
      b.state = "raw" →
      s.target_dataset = some tgt → tgt.state = "raw" →
      check_ready_for_comparison st
        = (false, "Selected baseline has not been evaluated")) := by
  refine ⟨?_, ?_, ?_⟩
  · cases st with
    | none =>
        constructor
        · intro h
          simpa [check_ready_for_comparison] using congrArg Prod.fst h
        · rintro ⟨s, hs, -⟩
          exact absurd hs (by simp)
    | some s =>
        rw [ready_some_iff]
        simp only [check_ready_for_comparison]
        split_ifs with h1 h2 h3 h4 h5 <;>
          simp_all [List.isEmpty_iff, Option.isNone_iff_eq_none,
            Option.isSome_iff_ne_none]
  · cases st with
    | none => simp [check_ready_for_comparison]
    | some s =>
        simp only [check_ready_for_comparison]
        split_ifs <;> simp
  · rintro s b tgt rfl hb hsel hget hbstate htgt htgtstate
    simp [check_ready_for_comparison, List.isEmpty_iff, hb, hsel, htgt, hget,
      hbstate]

def rawBaselineRecord : DatasetRecord :=
  { filename := "baseline.json", state := "raw" }

def rawTargetRecord : DatasetRecord :=
  { filename := "target.json", state := "raw", llm_version := "LL2" }

def rawRawState : WorkflowState :=
  { feature := "generate_code", current_phase := "target_created",
    llm_config_state := "ll2_active",
    baselines := [("baseline_20250101_120000_3", rawBaselineRecord)],
    target_dataset := some rawTargetRecord,
    selected_baseline_id := some "baseline_20250101_120000_3" }

/-- C2 witness: Phase 3 attempted right after Phase 2 with both datasets
still `raw` yields the baseline-specific refusal. -/
theorem check_ready_for_comparison_spec_witness :
    check_ready_for_comparison (some rawRawState)
      = (false, "Selected baseline has not been evaluated") :=
  (check_ready_for_comparison_spec (some rawRawState)).2.2 rawRawState
    rawBaselineRecord rawTargetRecord rfl (by decide) (by decide) (by decide)
    rfl rfl rfl

/-! ## Token-set similarity lemmas -/

theorem tokenSet_empty : tokenSet "" = ∅ := rfl

theorem text_similarity_comm (a b : String) :
    text_similarity a b = text_similarity b a := by
  by_cases ha : a = "" <;> by_cases hb : b = "" <;>
    simp [text_similarity, ha, hb, Finset.union_comm, Finset.inter_comm,
      ne_comm]

theorem text_similarity_self (a : String)
    (h : a = "" ∨ (tokenSet a).card ≠ 0) : text_similarity a a = 1 := by
  rcases h with h | h
  · subst h
    simp [text_similarity]
  · have ha : ¬(a = "") := fun e => h (by simp [e, tokenSet_empty])
    simp only [text_similarity, ha, or_self, if_false]
    rw [Finset.union_self, Finset.inter_self, if_neg h]
    exact div_self (by exact_mod_cast h)

/-- C5 counterexample: a whitespace-only string is nonempty, yet its
similarity to itself is `0`, not `1` (its token set is empty, so the Jaccard
branch returns the `0.0` union-empty fallback). -/
theorem text_similarity_self_cex :
    " " ≠ "" ∧ text_similarity " " " " ≠ 1 ∧ text_similarity " " " " = 0 := by
  refine ⟨by decide, ?_, by decide⟩
  decide

/-- C5 (amended): token-set similarity is symmetric for all strings, equals
`1` on both empty strings, equals `0` against the empty string on the other
side being nonempty, and equals `1` on identical strings whose token set is
nonempty (a nonempty string consisting only of whitespace has an empty token
set and similarity `0` to itself instead). -/
theorem text_similarity_props :
    (∀ a b, text_similarity a b = text_similarity b a) ∧
    (∀ a, (tokenSet a).card ≠ 0 → text_similarity a a = 1) ∧
    text_similarity "" "" = 1 ∧
    (∀ b, b ≠ "" → text_similarity "" b = 0) := by
  refine ⟨text_similarity_comm, ?_, by decide, ?_⟩
  · intro a h
    exact text_similarity_self a (Or.inr h)
  · intro b hb
    simp [text_similarity, hb, Ne.symm hb]

/-- C5 witness: the amended self-similarity and empty-versus-nonempty cases
at concrete strings. -/
theorem text_similarity_props_witness :
    (tokenSet "WebUI.click on button").card ≠ 0 ∧
    text_similarity "WebUI.click on button" "WebUI.click on button" = 1 ∧
    text_similarity "" "WebUI.click" = 0 :=
  ⟨by decide,
   text_similarity_props.2.1 "WebUI.click on button" (by decide),
   text_similarity_props.2.2.2 "WebUI.click" (by decide)⟩

/-! ## Consistency metric lemmas -/

theorem listMean_of_all_one (l : List ℚ) (h : ∀ x ∈ l, x = 1)
    (hne : l ≠ []) : listMean l = 1 := by
  unfold listMean
  rw [List.sum_eq_card_nsmul l 1 h, nsmul_eq_mul, mul_one]
  exact div_self (by exact_mod_cast List.length_pos.mpr hne |>.ne')

/-- C6 (amended): when the two result maps share at least one input id, every
common pair of `api_output`s is byte-identical, and each such output either
is empty or has a nonempty token set, the consistency metrics report
`overall_consistency = 1` and `significant_variations = 0`; and for all
datasets whatsoever `variation_details` keeps at most 5 entries.  (Without
the token-set proviso the claim fails: a whitespace-only output is
self-similar with score `0`, see the counterexample.) -/
theorem consistency_metrics_identical (b t : Dataset)
    (hne : commonInputs b t ≠ [])
    (hid : ∀ k ∈ commonInputs b t, apiOutputAt b k = apiOutputAt t k)
    (htok : ∀ k ∈ commonInputs b t,
      apiOutputAt b k = "" ∨ (tokenSet (apiOutputAt b k)).card ≠ 0) :
    (calculate_consistency_metrics b t).overall_consistency = 1 ∧
    (calculate_consistency_metrics b t).significant_variations = 0 ∧
    ∀ b' t' : Dataset,
      (calculate_consistency_metrics b' t').variation_details.length ≤ 5 := by
  have hscore : ∀ k ∈ commonInputs b t,
      text_similarity (apiOutputAt b k) (apiOutputAt t k) = 1 := by
    intro k hk
    rw [← hid k hk]
    exact text_similarity_self _ (htok k hk)
  refine ⟨?_, ?_, ?_⟩
  · simp only [calculate_consistency_metrics]
    have hmap : ∀ x ∈ (commonInputs b t).map
        (fun k => text_similarity (apiOutputAt b k) (apiOutputAt t k)),
        x = 1 := by
      intro x hx
      obtain ⟨k, hk, rfl⟩ := List.mem_map.mp hx
      exact hscore k hk
    rw [if_neg (by simpa [List.isEmpty_iff] using hne)]
    exact listMean_of_all_one _ hmap (by simpa using hne)
  · simp only [calculate_consistency_metrics]
    rw [List.length_eq_zero, List.filterMap_eq_nil_iff]
    intro k hk
    rw [hscore k hk, if_neg (by norm_num)]
  · intro b' t'
    simp only [calculate_consistency_metrics, List.length_take]
    exact min_le_left _ _

def identicalDataset : Dataset :=
  [("input_1", { api_output := "WebUI.openBrowser url" }),
   ("input_2", { api_output := "WebUI.click obj" })]

/-- C6 witness: two identical result maps with ordinary outputs give perfect
consistency and no significant variations. -/
theorem consistency_metrics_identical_witness :
    commonInputs identicalDataset identicalDataset ≠ [] ∧
    (calculate_consistency_metrics identicalDataset identicalDataset).overall_consistency = 1 ∧
    (calculate_consistency_metrics identicalDataset identicalDataset).significant_variations = 0 := by
  have h := consistency_metrics_identical identicalDataset identicalDataset
    (by decide) (by decide) (by decide)
  exact ⟨by decide, h.1, h.2.1⟩

def whitespaceDataset : Dataset :=
  [("input_1", { api_output := " " })]

/-- C6 counterexample: both datasets hold the byte-identical output `" "`
for their single common input, yet `overall_consistency` is `0` and one
significant variation is flagged, because the whitespace-only output's
similarity to itself is `0`. -/
theorem consistency_metrics_identical_cex :
    (∀ k ∈ commonInputs whitespaceDataset whitespaceDataset,
      apiOutputAt whitespaceDataset k = apiOutputAt whitespaceDataset k) ∧
    commonInputs whitespaceDataset whitespaceDataset ≠ [] ∧
    (calculate_consistency_metrics whitespaceDataset whitespaceDataset).overall_consistency ≠ 1 ∧
    (calculate_consistency_metrics whitespaceDataset whitespaceDataset).significant_variations = 1 := by
  have hsim : text_similarity " " " " = 0 := by decide
  have hcommon : commonInputs whitespaceDataset whitespaceDataset = ["input_1"] := by decide
  have hout : apiOutputAt whitespaceDataset "input_1" = " " := by decide
  refine ⟨fun k _ => rfl, by decide, ?_, ?_⟩
  · simp only [calculate_consistency_metrics, hcommon, List.map_cons,
      List.map_nil, hout, hsim, List.isEmpty_cons, if_false, listMean]
    norm_num
  · simp only [calculate_consistency_metrics, hcommon, List.filterMap_cons,
      hout, hsim]
    norm_num

/-- C3 (code bug): the analytic comparator only yields a recommendation in
consistency mode.  In accuracy mode `compare_datasets` stores the Python
value `None` under `consistency_metrics`, and `_generate_recommendation`
then evaluates `None.get("overall_consistency", 0)`, raising
`AttributeError` — no recommendation is produced at all, for any pair of
datasets.  (The decision function itself always picks one of the four
documented decisions.) -/
theorem compare_datasets_accuracy_mode_raises :
    (∀ b t : Dataset, compare_datasets_recommendation "accuracy" b t
      = Except.error "AttributeError: NoneType object has no attribute get") ∧
    (∀ si c : ℚ, (decideRecommendation si c).decision ∈
      (["RECOMMEND_LL2", "CONSIDER_LL2", "KEEP_LL1",
        "NEEDS_MORE_TESTING"] : List String)) := by
  constructor
  · intro b t
    simp [compare_datasets_recommendation, generate_recommendation]
  · intro si c
    unfold decideRecommendation
    split_ifs <;> simp

/-- C4: whenever the judge call raises, returns a falsy response, or returns
a response missing one of the eight required top-level fields,
`evaluate_with_llm3` returns the default verdict, whose
`final_recommendation` is `FURTHER_TESTING`, whose `confidence_level` is
`low`, and whose three score blocks hold only zero values. -/
theorem evaluate_with_llm3_default_on_failure (call : JudgeCall)
    (h : call = .error () ∨ call = .ok none ∨
      ∃ resp, call = .ok (some resp) ∧
        (resp = [] ∨ ∃ f ∈ requiredFields, dictHasKey resp f = false)) :
    evaluate_with_llm3 call = get_default_evaluation ∧
    dictGet get_default_evaluation "final_recommendation"
      = some (.str "FURTHER_TESTING") ∧
    dictGet get_default_evaluation "confidence_level" = some (.str "low") ∧
    allScoresZero ((dictGet get_default_evaluation "consistency_scores").getD .null)
      = true ∧
    allScoresZero ((dictGet get_default_evaluation "accuracy_scores").getD .null)
      = true ∧
    allScoresZero ((dictGet get_default_evaluation "performance_metrics").getD .null)
      = true := by
  refine ⟨?_, rfl, rfl, by decide, by decide, by decide⟩
  rcases h with rfl | rfl | ⟨resp, rfl, hr⟩
  · rfl
  · rfl
  · rcases hr with rfl | ⟨f, hf, hmiss⟩
    · rfl
    · by_cases hre : resp.isEmpty
      · simp [evaluate_with_llm3, hre]
      · have hall : requiredFields.all (fun g => dictHasKey resp g) = false :=
          List.all_eq_false.mpr ⟨f, hf, by simp [hmiss]⟩
        simp [evaluate_with_llm3, hre, hall]

/-- C4 witness: a mocked response missing `final_recommendation` yields
exactly the documented default verdict. -/
theorem evaluate_with_llm3_default_on_failure_witness :
    evaluate_with_llm3 (.ok (some [("confidence_level", .str "high")]))
      = get_default_evaluation ∧
    dictGet get_default_evaluation "final_recommendation"
      = some (.str "FURTHER_TESTING") :=
  have h := evaluate_with_llm3_default_on_failure
    (.ok (some [("confidence_level", .str "high")]))
    (Or.inr (Or.inr ⟨_, rfl,
      Or.inr ⟨"final_recommendation", by decide, by decide⟩⟩))
  ⟨h.1, h.2.1⟩

/-- C10: `load_state` is total over file contents: an absent file, invalid
JSON, and a decoded object whose keys do not match the `WorkflowState`
constructor all yield `none` (the code catches every exception), and a state
is returned only when the keys match. -/
theorem load_state_total (j : JVal) (now : String) :
    load_state none now = none ∧
    load_state (some none) now = none ∧
    (kwargsMatch j = false → load_state (some (some j)) now = none) ∧
    (∀ s, load_state (some (some j)) now = some s → kwargsMatch j = true) := by
  refine ⟨rfl, rfl, ?_, ?_⟩
  · intro h
    simp [load_state, decodeState, h]
  · intro s hs
    by_contra hk
    rw [Bool.not_eq_true] at hk
    simp [load_state, decodeState, hk] at hs

/-- C10 witness: a JSON object with an unknown key is rejected, and a
missing file loads as `none`. -/
theorem load_state_total_witness :
    load_state (some (some (.obj [("unexpected_key", .null)]))) "t0" = none ∧
    load_state none "t0" = none :=
  ⟨(load_state_total (.obj [("unexpected_key", .null)]) "t0").2.2.1 (by decide),
   (load_state_total (.obj [("unexpected_key", .null)]) "t0").1⟩

/-! ## Round-trip lemmas for the persisted layout -/

theorem decodeNat_encode (n : Nat) : decodeNat (.num n) = some n := by
  simp [decodeNat]

theorem decodeRecord_encodeRecord (r : DatasetRecord) :
    decodeRecord (encodeRecord r) = some r := by
  cases r with
  | mk fn inf ni ca st lv bi ua =>
      cases bi <;> cases ua <;>
        simp [decodeRecord, encodeRecord, dictGet, decodeStr, decodeOptStr,
          encodeOptStr, decodeNat_encode]

theorem decodeEntries_encode (bs : List (String × DatasetRecord)) :
    decodeEntries (bs.map (fun kv => (kv.1, encodeRecord kv.2))) = some bs := by
  induction bs with
  | nil => rfl
  | cons hd tl ih =>
      simp [decodeEntries, decodeRecord_encodeRecord, ih]

theorem decodeBaselines_encode (bs : List (String × DatasetRecord)) :
    decodeBaselines (some (.obj (bs.map (fun kv => (kv.1, encodeRecord kv.2)))))
      = some bs := by
  simp [decodeBaselines, decodeEntries_encode]

theorem decodeTarget_null : decodeTarget (some .null) = some none := rfl

theorem decodeTarget_encode (r : DatasetRecord) :
    decodeTarget (some (encodeRecord r)) = some (some r) := by
  rw [show decodeTarget (some (encodeRecord r))
      = Option.map some (decodeRecord (encodeRecord r)) from rfl,
    decodeRecord_encodeRecord]
  rfl

theorem kwargsMatch_encodeState (st : WorkflowState) :
    kwargsMatch (encodeState st) = true := rfl

/-- C8: saving a workflow state and loading it back succeeds and preserves
the baselines mapping (keys and record contents), the selected baseline id,
and the target dataset.  (`__post_init__` rewrites `updated_at` — and
`created_at` when it was falsy — on load, which the claim does not cover.) -/
theorem save_state_load_state_round_trip (st : WorkflowState) (now : String) :
    ∃ st', load_state (save_state st) now = some st' ∧
      st'.baselines = st.baselines ∧
      st'.selected_baseline_id = st.selected_baseline_id ∧
      st'.target_dataset = st.target_dataset := by
  refine ⟨{ st with
      updated_at := now
      created_at := (if st.created_at = "" then now else st.created_at) },
    ?_, rfl, rfl, rfl⟩
  show decodeState (encodeState st) now = _
  cases st with
  | mk f cp lcs bs tgt sel inf ca ua =>
      cases tgt <;> cases sel <;> cases inf <;>
        simp [decodeState, encodeState, kwargsMatch, dictHasKey, dictGet,
          stateFields, requiredStateFields, decodeStr, decodeOptStr,
          encodeOptStr, decodeBaselines_encode, decodeTarget_null,
          decodeTarget_encode, decodeCreatedAt]

end KatalonPoC
